import Mathlib

/-!
Shallow embedding of `src/context.ts` (preact-context): the broadcast hub
(`ContextProvider`), the null hub (`noopContext`), and the render logic of the
`Provider` and `Consumer` components produced by `createContext`.

Callbacks (`StateUpdater`s) are identified by natural-number ids; an invocation
of a callback is recorded as a `Call`.  JavaScript `===` on the payload type is
modelled by decidable equality on a type parameter `α`.  The JavaScript `| 0`
coercion (ToInt32) is `toInt32` below.
-/

/-- JavaScript ToInt32 (the `| 0` coercion): wrap an integer into
`[-2^31, 2^31)`. -/
def toInt32 (n : Int) : Int := (n + 2 ^ 31) % 2 ^ 32 - 2 ^ 31

/-- `MAX_SIGNED_31_BIT_INT` from the source: `1073741823 = 2^30 - 1`. -/
def MAX_SIGNED_31_BIT_INT : Int := 1073741823

/-- The 31-bit-safe signed integer domain `[-2^30, 2^30 - 1]`, whose maximum is
`MAX_SIGNED_31_BIT_INT` (the spec's ChangeDescriptor domain). -/
def inSigned31 (d : Int) : Prop := -(2 ^ 30) ≤ d ∧ d ≤ MAX_SIGNED_31_BIT_INT

instance (d : Int) : Decidable (inSigned31 d) := by
  unfold inSigned31; infer_instance

/-- State of one `ContextProvider` hub: the current value and the `_updaters`
array (subscriber callback ids, in registration order, duplicates allowed as in
a JS array). -/
structure HubState (α : Type) where
  value : α
  updaters : List Nat
deriving Repr, DecidableEq

/-- One invocation of a subscriber callback: which updater was called, and the
`(value, bitmask)` arguments it received. -/
structure Call (α : Type) where
  updater : Nat
  value : α
  bitmask : Int
deriving Repr, DecidableEq

/-- `ContextProvider.unregister`: `this._updaters = this._updaters.filter(i => i !== updater)`. -/
def unregister (u : Nat) (s : HubState α) : HubState α :=
  { s with updaters := s.updaters.filter (fun i => i ≠ u) }

/-- `ContextProvider.register`: pushes the updater, immediately invokes it with
`(this.value, 0)`, and returns the closure `() => this.unregister(updater)`.
Result: (new hub state, calls made, returned unsubscribe handle). -/
def register (u : Nat) (s : HubState α) :
    HubState α × List (Call α) × (HubState α → HubState α) :=
  ({ s with updaters := s.updaters ++ [u] },
   [⟨u, s.value, 0⟩],
   fun s2 => unregister u s2)

/-- `ContextProvider.setValue`: no-op when `newValue === this.value`; otherwise
computes `diff = bitmaskFactory(old, new) | 0`, stores the new value, then
`this._updaters.forEach(up => up(newValue, diff))`.  Result: (new hub state,
calls made, in order). -/
def setValue [DecidableEq α] (newValue : α) (bitmaskFactory : α → α → Int)
    (s : HubState α) : HubState α × List (Call α) :=
  if newValue = s.value then (s, [])
  else
    let diff := toInt32 (bitmaskFactory s.value newValue)
    ({ value := newValue, updaters := s.updaters },
     s.updaters.map (fun u => ⟨u, newValue, diff⟩))

/-- Run a sequence of `setValue` calls, accumulating the notifications. -/
def runSetValues [DecidableEq α] :
    List (α × (α → α → Int)) → HubState α → HubState α × List (Call α)
  | [], s => (s, [])
  | (v, f) :: rest, s =>
    let r := setValue v f s
    let r2 := runSetValues rest r.1
    (r2.1, r.2 ++ r2.2)

/-- A hub operation a subscriber callback may perform reentrantly during a
fan-out: registering or unregistering a callback (the operations `Consumer`
lifecycle code calls). -/
inductive RegOp where
  | reg (u : Nat)
  | unreg (u : Nat)
deriving Repr, DecidableEq

/-- Apply one reentrant operation to the hub; a reentrant `register` also emits
its immediate synchronization call. -/
def applyRegOp (s : HubState α) : RegOp → HubState α × List (Call α)
  | .reg u => ((register u s).1, (register u s).2.1)
  | .unreg u => (unregister u s, [])

/-- Apply a list of reentrant operations in order. -/
def applyRegOps (s : HubState α) : List RegOp → HubState α × List (Call α)
  | [] => (s, [])
  | op :: rest =>
    let r := applyRegOp s op
    let r2 := applyRegOps r.1 rest
    (r2.1, r.2 ++ r2.2)

/-- The `forEach` fan-out loop of `setValue`, with reentrancy: `snapshot` is
the `_updaters` array captured when the loop starts (`unregister` replaces the
array rather than mutating it, and elements pushed after `forEach` begins are
not visited, so the loop iterates exactly the captured elements).  `env u` is
the list of hub operations callback `u` performs when invoked.  Result:
(final hub state, primary notifications delivered by this fan-out, calls
emitted by reentrant registrations). -/
def fanout (env : Nat → List RegOp) (newValue : α) (diff : Int) :
    List Nat → HubState α → HubState α × List (Call α) × List (Call α)
  | [], s => (s, [], [])
  | u :: rest, s =>
    let r := applyRegOps s (env u)
    let r2 := fanout env newValue diff rest r.1
    (r2.1, ⟨u, newValue, diff⟩ :: r2.2.1, r.2 ++ r2.2.2)

/-- `ContextProvider.setValue` with reentrant subscriber callbacks: same guard
and descriptor computation as `setValue`, with the fan-out modelled by
`fanout` over the snapshot of `_updaters` taken at fan-out start. -/
def setValueReentrant [DecidableEq α] (env : Nat → List RegOp) (newValue : α)
    (bitmaskFactory : α → α → Int) (s : HubState α) :
    HubState α × List (Call α) × List (Call α) :=
  if newValue = s.value then (s, [], [])
  else
    let diff := toInt32 (bitmaskFactory s.value newValue)
    fanout env newValue diff s.updaters { value := newValue, updaters := s.updaters }

/-- JavaScript values, as far as the consumer-side code observes them:
truthiness and identity.  Functions and other objects are identified by ids.
(`NaN` is not modelled; numeric payloads are integers.) -/
inductive JsValue where
  | undef
  | nullv
  | boolv (b : Bool)
  | numv (n : Int)
  | strv (s : String)
  | funcv (id : Nat)
  | obj (id : Nat)
deriving Repr, DecidableEq

/-- JavaScript truthiness: `undefined`, `null`, `false`, `0` and `""` are
falsy; every function and object is truthy. -/
def JsValue.truthy : JsValue → Bool
  | .undef => false
  | .nullv => false
  | .boolv b => b
  | .numv n => n != 0
  | .strv s => s != ""
  | .funcv _ => true
  | .obj _ => true

/-- Whether a JS value is a function (`typeof v === "function"`). -/
def JsValue.isFunc : JsValue → Bool
  | .funcv _ => true
  | _ => false

/-- JavaScript `a || b`. -/
def jsOr (a b : JsValue) : JsValue := if a.truthy then a else b

/-- `Consumer` constructor: `this.state = { value: this.getContextProvider().value || value }`
where `value` is the default supplied to `createContext`. -/
def consumerInitState (hubValue defaultValue : JsValue) : JsValue :=
  jsOr hubValue defaultValue

/-- `Consumer.updateContext`, the callback passed to `register`: resolves the
observed mask (`unstable_observedBits`, defaulting to `MAX_SIGNED_31_BIT_INT`
when `undefined`/`null`), coerces it with `| 0`, and leaves the local state
untouched when `(observed & bitmask) === 0`, otherwise sets it to the new
value.  (JS `&` applies ToInt32 to both operands.) -/
def updateContext (observedBits : Option Int) (stateValue : α) (v : α)
    (bitmask : Int) : α :=
  let observed := toInt32 (observedBits.getD MAX_SIGNED_31_BIT_INT)
  if Int.land observed (toInt32 bitmask) = 0 then stateValue else v

/-- The warning text of `noopContext.register`. -/
def noopWarning : String := "Consumer used without a Provider"

/-- `noopContext.register`: logs a warning and returns `undefined` (its body
has no return statement).  Result: (warnings printed, returned value). -/
def noopRegister (_u : Nat) : List String × JsValue :=
  ([noopWarning], JsValue.undef)

/-- `noopContext.unregister`: does nothing. -/
def noopUnregister (_u : Nat) : Unit := ()

/-- `noopContext.setValue`: does nothing. -/
def noopSetValue (_v : JsValue) : Unit := ()

/-- `noopContext.value` is `undefined`. -/
def noopContextValue : JsValue := JsValue.undef

/-- Child nodes a `Provider` renders (vnodes, text, numbers, booleans,
`null`), with JS truthiness on the non-element cases. -/
inductive PNode where
  | elem (tag : String) (kids : List PNode)
  | textn (s : String)
  | numn (n : Int)
  | booln (b : Bool)
  | nulln

/-- JS truthiness of a child node: an element object is truthy; `""`, `0`,
`false` and `null` are falsy. -/
def PNode.truthy : PNode → Bool
  | .elem _ _ => true
  | .textn s => s != ""
  | .numn n => n != 0
  | .booln b => b
  | .nulln => false

/-- `Provider.render`: wraps more than one child in a `span`; otherwise
`const result = children && children[0]; return result || null`. -/
def providerRender (children : List PNode) : PNode :=
  if children.length > 1 then .elem "span" children
  else
    match children.head? with
    | some c => if c.truthy then c else .nulln
    | none => .nulln

/-- A child of a `Consumer`: either a function child (identified by id) or any
other JS value. -/
inductive ConsumerChild where
  | fn (id : Nat)
  | nonFn (v : JsValue)
deriving Repr, DecidableEq

/-- JS truthiness of a consumer child (functions are truthy). -/
def ConsumerChild.truthy : ConsumerChild → Bool
  | .fn _ => true
  | .nonFn v => v.truthy

/-- `getRenderer(props) = (children && children[0]) || render`: the first
child when it is truthy, otherwise the `render` prop (a function or
`undefined`). -/
def getRenderer (children : List ConsumerChild) (render : Option Nat) :
    Option ConsumerChild :=
  match children.head? with
  | some c => if c.truthy then some c else render.map ConsumerChild.fn
  | none => render.map ConsumerChild.fn

/-- What `Consumer.render` produces: either it invokes the resolved render
function with an argument, or it renders nothing. -/
inductive RenderOutcome where
  | invoked (f : Nat) (arg : JsValue)
  | nothingR
deriving Repr, DecidableEq

/-- The two warnings `Consumer.render` can print. -/
inductive CWarning where
  | bothChildrenAndRender
  | expectingFunction
deriving Repr, DecidableEq

/-- `Consumer.render`: `r = getRenderer(props)`; warns when
`render && render !== r`; if `r` is a function, invokes it with
`this.state.value || value` (the creation-time default); otherwise warns and
renders nothing.  Result: (outcome, warnings in print order). -/
def consumerRender (children : List ConsumerChild) (render : Option Nat)
    (stateValue defaultValue : JsValue) : RenderOutcome × List CWarning :=
  let r := getRenderer children render
  let warns :=
    match render with
    | some g => if r ≠ some (ConsumerChild.fn g) then [CWarning.bothChildrenAndRender] else []
    | none => []
  match r with
  | some (ConsumerChild.fn f) =>
    (RenderOutcome.invoked f (jsOr stateValue defaultValue), warns)
  | some (ConsumerChild.nonFn _) => (RenderOutcome.nothingR, warns ++ [CWarning.expectingFunction])
  | none => (RenderOutcome.nothingR, warns ++ [CWarning.expectingFunction])

/-- A concrete reentrant environment: callback `1` unregisters callback `2`
mid-fan-out; every other callback performs no hub operation. -/
def envUnreg2 : Nat → List RegOp := fun u => if u = 1 then [RegOp.unreg 2] else []

-- Sanity checks on the hub model.
example : (setValue 1 (fun _ _ => 5) (⟨0, [7, 8]⟩ : HubState Int)).2 =
    [⟨7, 1, 5⟩, ⟨8, 1, 5⟩] := by decide

example : (setValue 0 (fun _ _ => 5) (⟨0, [7, 8]⟩ : HubState Int)).2 = [] := by
  decide

example : toInt32 (2 ^ 32 + 3) = 3 := by decide

example : toInt32 (2 ^ 31) = -(2 ^ 31) := by decide

example : toInt32 (2 ^ 30) = 2 ^ 30 := by decide

/-! ### Helper lemmas -/

theorem int_zero_land (x : Int) : Int.land 0 x = 0 := by
  cases x <;> simp [Int.land, Nat.ldiff, Nat.bitwise_zero_left]

theorem int_land_comm (a b : Int) : Int.land a b = Int.land b a := by
  cases a <;> cases b <;> simp [Int.land, Nat.land_comm, Nat.lor_comm]

theorem toInt32_bounds (n : Int) : -(2 ^ 31) ≤ toInt32 n ∧ toInt32 n < 2 ^ 31 := by
  unfold toInt32
  have h1 : (0 : Int) ≤ (n + 2 ^ 31) % 2 ^ 32 := Int.emod_nonneg _ (by norm_num)
  have h2 : (n + 2 ^ 31) % 2 ^ 32 < 2 ^ 32 := Int.emod_lt_of_pos _ (by norm_num)
  have h3 : (2 : Int) ^ 31 = 2147483648 := by norm_num
  have h4 : (2 : Int) ^ 32 = 4294967296 := by norm_num
  rw [h3, h4] at h1 h2 ⊢
  omega

theorem setValue_updaters [DecidableEq α] (v : α) (f : α → α → Int)
    (s : HubState α) : ((setValue v f s).1).updaters = s.updaters := by
  unfold setValue; split <;> rfl

theorem mem_setValue_calls [DecidableEq α] (v : α) (f : α → α → Int)
    (s : HubState α) (c : Call α) (h : c ∈ (setValue v f s).2) :
    c.updater ∈ s.updaters := by
  unfold setValue at h
  split at h
  · simp at h
  · rcases List.mem_map.mp h with ⟨u, hu, hc⟩
    rw [← hc]; exact hu

theorem runSetValues_no_calls [DecidableEq α] (u : Nat)
    (ops : List (α × (α → α → Int))) :
    ∀ s : HubState α, u ∉ s.updaters →
      ∀ c ∈ (runSetValues ops s).2, c.updater ≠ u := by
  induction ops with
  | nil => intro s _ c hc; simp [runSetValues] at hc
  | cons p rest ih =>
    intro s hu c hc
    obtain ⟨v, f⟩ := p
    simp only [runSetValues, List.mem_append] at hc
    rcases hc with hc | hc
    · have hm := mem_setValue_calls v f s c hc
      intro he; rw [he] at hm; exact hu hm
    · exact ih (setValue v f s).1 (by rw [setValue_updaters]; exact hu) c hc

theorem unregister_not_mem (u : Nat) (s : HubState α) :
    u ∉ (unregister u s).updaters := by
  simp [unregister, List.mem_filter]

theorem unregister_eq_self (u : Nat) (s : HubState α) (h : u ∉ s.updaters) :
    unregister u s = s := by
  have hf : s.updaters.filter (fun i => i ≠ u) = s.updaters := by
    apply List.filter_eq_self.mpr
    intro a ha
    simp only [ne_eq, decide_not, Bool.not_eq_true', decide_eq_false_iff_not]
    intro he; rw [he] at ha; exact h ha
  show { s with updaters := s.updaters.filter (fun i => i ≠ u) } = s
  rw [hf]

theorem unregister_idem_helper (u : Nat) (s : HubState α) :
    unregister u (unregister u s) = unregister u s :=
  unregister_eq_self u (unregister u s) (unregister_not_mem u s)

theorem fanout_primary (env : Nat → List RegOp) (v : α) (d : Int) :
    ∀ (us : List Nat) (s : HubState α),
      (fanout env v d us s).2.1 = us.map (fun u => ⟨u, v, d⟩) := by
  intro us
  induction us with
  | nil => intro s; rfl
  | cons u rest ih => intro s; simp [fanout, ih]

theorem applyRegOps_append (l1 l2 : List RegOp) :
    ∀ s : HubState α,
      (applyRegOps s (l1 ++ l2)).1 = (applyRegOps (applyRegOps s l1).1 l2).1 := by
  induction l1 with
  | nil => intro s; rfl
  | cons op rest ih => intro s; simp [applyRegOps, ih]

theorem fanout_state (env : Nat → List RegOp) (v : α) (d : Int) :
    ∀ (us : List Nat) (s : HubState α),
      (fanout env v d us s).1 = (applyRegOps s (us.flatMap env)).1 := by
  intro us
  induction us with
  | nil => intro s; rfl
  | cons u rest ih =>
    intro s
    simp [fanout, List.flatMap_cons, applyRegOps_append, ih]

theorem applyRegOps_not_mem (u : Nat) (l : List RegOp) :
    ∀ s : HubState α, u ∉ s.updaters → RegOp.reg u ∉ l →
      u ∉ (applyRegOps s l).1.updaters := by
  induction l with
  | nil => intro s hu _; exact hu
  | cons op rest ih =>
    intro s hu hr
    have hr1 : op ≠ RegOp.reg u := fun he => hr (he ▸ List.mem_cons_self op rest)
    have hr2 : RegOp.reg u ∉ rest := fun hm => hr (List.mem_cons_of_mem op hm)
    show u ∉ (applyRegOps (applyRegOp s op).1 rest).1.updaters
    apply ih _ ?_ hr2
    cases op with
    | reg w =>
      have hw : w ≠ u := fun he => hr1 (by rw [he])
      intro hmem
      rcases List.mem_append.mp hmem with hm | hm
      · exact hu hm
      · have hwu : u = w := by simpa using hm
        exact hw hwu.symm
    | unreg w =>
      intro hmem
      exact hu (List.mem_filter.mp hmem).1

theorem applyRegOps_unreg (u : Nat) (l : List RegOp) :
    ∀ s : HubState α, RegOp.unreg u ∈ l → RegOp.reg u ∉ l →
      u ∉ (applyRegOps s l).1.updaters := by
  induction l with
  | nil => intro s hm _; cases hm
  | cons op rest ih =>
    intro s hm hr
    have hr2 : RegOp.reg u ∉ rest := fun h => hr (List.mem_cons_of_mem op h)
    show u ∉ (applyRegOps (applyRegOp s op).1 rest).1.updaters
    by_cases hu : RegOp.unreg u ∈ rest
    · exact ih _ hu hr2
    · have hop : op = RegOp.unreg u := by
        rcases List.mem_cons.mp hm with h | h
        · exact h.symm
        · exact absurd h hu
      rw [hop]
      exact applyRegOps_not_mem u rest _ (unregister_not_mem u s) hr2

/-! ### Claim theorems -/

/-- C1 (counterexample): the claim says the descriptor is coerced "to the
31-bit-safe signed integer domain", but `setValue` coerces with `| 0`
(ToInt32): with a bitmask factory returning `2^30 = 1073741824`, the delivered
descriptor is `1073741824`, which lies outside the 31-bit-safe signed domain
(its maximum is `MAX_SIGNED_31_BIT_INT = 2^30 - 1`). -/
theorem setValue_descriptor_not_31bit :
    (setValue 1 (fun _ _ => 1073741824) (⟨0, [4]⟩ : HubState Int)).2 =
      [⟨4, 1, 1073741824⟩] ∧ ¬ inSigned31 1073741824 := by
  constructor
  · decide
  · decide

/-- C1 (amended): `setValue(newValue, bitmaskFactory)` is a no-op (state
unchanged, no notifications) when `newValue` is identity-equal to the stored
value; otherwise it computes `descriptor = bitmaskFactory(old, new)`, coerces
it to the 32-bit signed integer domain (JS `| 0`), stores `newValue`, and
invokes every currently-registered subscriber, in registration order, exactly
once per registration, with `(newValue, descriptor)`. -/
theorem setValue_fanout_int32 [DecidableEq α] (v : α) (f : α → α → Int)
    (s : HubState α) :
    (v = s.value → setValue v f s = (s, [])) ∧
    (v ≠ s.value →
      (setValue v f s).1.value = v ∧
      (setValue v f s).1.updaters = s.updaters ∧
      (setValue v f s).2 =
        s.updaters.map (fun u => ⟨u, v, toInt32 (f s.value v)⟩) ∧
      -(2 ^ 31) ≤ toInt32 (f s.value v) ∧ toInt32 (f s.value v) < 2 ^ 31) := by
  constructor
  · intro h; simp only [setValue, if_pos h]
  · intro h
    have hs : setValue v f s =
        ({ value := v, updaters := s.updaters },
         s.updaters.map (fun u => ⟨u, v, toInt32 (f s.value v)⟩)) := by
      simp only [setValue, if_neg h]
    refine ⟨?_, ?_, ?_, (toInt32_bounds _).1, (toInt32_bounds _).2⟩ <;> rw [hs]

/-- Witness for the amended C1 theorem at a concrete hub. -/
theorem setValue_fanout_int32_witness :
    (1 : Int) ≠ (HubState.mk (0 : Int) [4]).value ∧
    (setValue 1 (fun _ _ => (7 : Int)) (HubState.mk (0 : Int) [4])).2 =
      (HubState.mk (0 : Int) [4]).updaters.map (fun u => ⟨u, 1, toInt32 7⟩) :=
  ⟨by decide,
   ((setValue_fanout_int32 1 (fun _ _ => 7) (HubState.mk (0 : Int) [4])).2
     (by decide)).2.2.1⟩

/-- C2: `register(callback)` appends the callback to the subscriber list,
immediately invokes it exactly once with `(currentValue, 0)`, and returns a
handle that, when called, removes that callback from the subscriber list. -/
theorem register_appends_syncs_returns_remover (u : Nat) (s : HubState α) :
    (register u s).1.value = s.value ∧
    (register u s).1.updaters = s.updaters ++ [u] ∧
    (register u s).2.1 = [⟨u, s.value, 0⟩] ∧
    (register u s).2.2 = unregister u ∧
    ∀ s2 : HubState α, ((register u s).2.2 s2).updaters =
      s2.updaters.filter (fun i => i ≠ u) :=
  ⟨rfl, rfl, rfl, rfl, fun _ => rfl⟩

/-- C3 (counterexample): a dependent with the default/unset mask does not
accept every non-zero descriptor: `1073741824 = 2^30` is non-zero but
`MAX_SIGNED_31_BIT_INT & 2^30 = 0`, so `updateContext` leaves the state
untouched instead of updating it to the new value. -/
theorem updateContext_default_mask_rejects_bit30 :
    (1073741824 : Int) ≠ 0 ∧
    updateContext none (0 : Int) 1 1073741824 = 0 ∧
    ((0 : Int) ≠ 1) := by
  refine ⟨by decide, by decide, by decide⟩

/-- C3 (amended): with `observed` = the interest mask if defined else
`MAX_SIGNED_31_BIT_INT`, coerced to the 32-bit signed domain (`| 0`), the
callback leaves local state untouched exactly when `(observed & descriptor)`
is `0` and otherwise updates it to the new value; a mask-`0` dependent is
never mutated; a default/unset-mask dependent accepts exactly the descriptors
whose 32-bit coercion shares a bit with `MAX_SIGNED_31_BIT_INT` (bits 0-29),
not every non-zero descriptor. -/
theorem updateContext_filter_spec (obs : Option Int) (st v : α) (d : Int) :
    (Int.land (toInt32 (obs.getD MAX_SIGNED_31_BIT_INT)) (toInt32 d) = 0 →
      updateContext obs st v d = st) ∧
    (Int.land (toInt32 (obs.getD MAX_SIGNED_31_BIT_INT)) (toInt32 d) ≠ 0 →
      updateContext obs st v d = v) ∧
    updateContext (some 0) st v d = st ∧
    (Int.land (toInt32 d) MAX_SIGNED_31_BIT_INT ≠ 0 →
      updateContext none st v d = v) := by
  refine ⟨?_, ?_, ?_, ?_⟩
  · intro h; simp only [updateContext, if_pos h]
  · intro h; simp only [updateContext, if_neg h]
  · have h1 : toInt32 ((some (0 : Int)).getD MAX_SIGNED_31_BIT_INT) = 0 := by
      decide
    have h0 : Int.land (toInt32 ((some (0 : Int)).getD MAX_SIGNED_31_BIT_INT))
        (toInt32 d) = 0 := by
      rw [h1]; exact int_zero_land _
    simp only [updateContext, if_pos h0]
  · intro h
    have hm : toInt32 ((none : Option Int).getD MAX_SIGNED_31_BIT_INT) =
        MAX_SIGNED_31_BIT_INT := by decide
    have h2 : Int.land (toInt32 ((none : Option Int).getD MAX_SIGNED_31_BIT_INT))
        (toInt32 d) ≠ 0 := by
      rw [hm, int_land_comm]; exact h
    simp only [updateContext, if_neg h2]

/-- Witness for the amended C3 theorem: descriptor 1 with the default mask
updates the state. -/
theorem updateContext_filter_spec_witness :
    Int.land (toInt32 1) MAX_SIGNED_31_BIT_INT ≠ 0 ∧
    updateContext none (0 : Int) 5 1 = 5 :=
  ⟨by decide, (updateContext_filter_spec none 0 5 1).2.2.2 (by decide)⟩

/-- C4: `unregister` removes the callback from the subscriber list by
identity, is a no-op on a callback that is not in the list, and is
idempotent. -/
theorem unregister_removes_idempotent (u : Nat) (s : HubState α) :
    (unregister u s).value = s.value ∧
    (unregister u s).updaters = s.updaters.filter (fun i => i ≠ u) ∧
    (u ∉ s.updaters → unregister u s = s) ∧
    unregister u (unregister u s) = unregister u s :=
  ⟨rfl, rfl, unregister_eq_self u s, unregister_idem_helper u s⟩

/-- Witness for the C4 theorem: unregistering an absent callback changes
nothing. -/
theorem unregister_removes_idempotent_witness :
    3 ∉ (HubState.mk (0 : Int) [1, 2]).updaters ∧
    unregister 3 (HubState.mk (0 : Int) [1, 2]) = HubState.mk (0 : Int) [1, 2] :=
  ⟨by decide,
   (unregister_removes_idempotent 3 (HubState.mk (0 : Int) [1, 2])).2.2.1
     (by decide)⟩

/-- C5 (counterexample): `noopContext.register` returns `undefined` (its body
only prints a warning), which is not a function, so it does not return a
no-op unsubscribe handle as the claim states. -/
theorem noopRegister_no_handle :
    (noopRegister 0).2 = JsValue.undef ∧ (noopRegister 0).2.isFunc = false :=
  ⟨rfl, rfl⟩

/-- C5 (amended): the Null Hub's `register` surfaces the diagnostic warning
and returns `undefined` (no unsubscribe handle; callers ignore the return
value); `unregister` and `setValue` do nothing; no Null Hub operation throws
(all are total). -/
theorem noopContext_spec (u : Nat) (v : JsValue) :
    noopRegister u = ([noopWarning], JsValue.undef) ∧
    noopUnregister u = () ∧
    noopSetValue v = () ∧
    noopContextValue = JsValue.undef :=
  ⟨rfl, rfl, rfl, rfl⟩

/-- C6 (counterexample): the callback is not "never invoked":
`register` itself immediately invokes it once with `(currentValue, 0)`, even
when it is unregistered right afterwards. -/
theorem register_immediately_invokes :
    (register 1 (⟨0, []⟩ : HubState Int)).2.1 = [⟨1, 0, 0⟩] ∧
    (register 1 (⟨0, []⟩ : HubState Int)).2.1 ≠ [] := by
  constructor
  · rfl
  · decide

/-- C6 (amended): after `register(callback)` immediately followed by
`unregister(callback)` and before any `setValue`, the callback was invoked
exactly once (the initial synchronization with descriptor `0`), and no
subsequent sequence of `setValue` calls ever delivers a notification to it. -/
theorem register_unregister_setValues_silent [DecidableEq α] (u : Nat)
    (s : HubState α) (ops : List (α × (α → α → Int))) :
    (register u s).2.1 = [⟨u, s.value, 0⟩] ∧
    (runSetValues ops (unregister u (register u s).1)).2.all
      (fun c => c.updater ≠ u) = true := by
  refine ⟨rfl, ?_⟩
  apply List.all_eq_true.mpr
  intro c hc
  have hu : u ∉ (unregister u (register u s).1).updaters := unregister_not_mem u _
  have hne := runSetValues_no_calls u ops _ hu c hc
  exact decide_eq_true hne

/-- C7: during a `setValue` fan-out, notifications are delivered by iterating
the stable snapshot of the subscriber list taken at fan-out start: (i) every
snapshot member receives the in-flight notification exactly once, in
registration order, regardless of registrations/unregistrations the callbacks
perform reentrantly (in particular, an in-flight unregister never removes a
subscriber from the executing fan-out, and no addition or removal crashes the
fan-out, which always completes); (ii) a callback unregistered during the
fan-out (and not re-registered) is absent from the resulting subscriber list;
(iii) a callback absent from the resulting subscriber list receives nothing
from the next fan-out. -/
theorem setValue_snapshot_semantics [DecidableEq α] (env : Nat → List RegOp)
    (v : α) (f : α → α → Int) (s : HubState α) (h : v ≠ s.value) :
    (setValueReentrant env v f s).2.1 =
      s.updaters.map (fun u => ⟨u, v, toInt32 (f s.value v)⟩) ∧
    (∀ u : Nat, RegOp.unreg u ∈ s.updaters.flatMap env →
      RegOp.reg u ∉ s.updaters.flatMap env →
      u ∉ (setValueReentrant env v f s).1.updaters) ∧
    (∀ u : Nat, u ∉ (setValueReentrant env v f s).1.updaters →
      ∀ (v2 : α) (f2 : α → α → Int) (c : Call α),
        c ∈ (setValue v2 f2 (setValueReentrant env v f s).1).2 →
        c.updater ≠ u) := by
  have hsv : setValueReentrant env v f s =
      fanout env v (toInt32 (f s.value v)) s.updaters
        { value := v, updaters := s.updaters } := by
    simp only [setValueReentrant, if_neg h]
  refine ⟨?_, ?_, ?_⟩
  · rw [hsv, fanout_primary]
  · intro u hmem hreg
    rw [hsv, fanout_state]
    exact applyRegOps_unreg u _ _ hmem hreg
  · intro u hu v2 f2 c hc he
    have hm := mem_setValue_calls v2 f2 _ c hc
    rw [he] at hm
    exact hu hm

/-- Witness for the C7 theorem: with subscribers `[1, 2]` and callback `1`
unregistering callback `2` mid-fan-out, `2` still receives the in-flight
notification, and is gone from the list used by the next fan-out. -/
theorem setValue_snapshot_semantics_witness :
    (setValueReentrant envUnreg2 1 (fun _ _ => 3)
        (HubState.mk (0 : Int) [1, 2])).2.1 =
      (HubState.mk (0 : Int) [1, 2]).updaters.map (fun u => ⟨u, 1, toInt32 3⟩) ∧
    2 ∉ (setValueReentrant envUnreg2 1 (fun _ _ => 3)
        (HubState.mk (0 : Int) [1, 2])).1.updaters :=
  ⟨(setValue_snapshot_semantics envUnreg2 1 (fun _ _ => 3)
      (HubState.mk (0 : Int) [1, 2]) (by decide)).1,
   (setValue_snapshot_semantics envUnreg2 1 (fun _ _ => 3)
      (HubState.mk (0 : Int) [1, 2]) (by decide)).2.1 2 (by decide) (by decide)⟩

/-- C8 (counterexample): a `Provider` given exactly one falsy child (here the
number `0`) does not pass it through unchanged: `return (result || null)`
renders nothing instead. -/
theorem providerRender_single_falsy_child :
    providerRender [PNode.numn 0] = PNode.nulln ∧
    PNode.nulln ≠ PNode.numn 0 :=
  ⟨rfl, fun h => nomatch h⟩

/-- C8 (amended): `Provider.render` wraps more than one child in a single
neutral `span`; passes a single truthy child through unchanged; renders
nothing (`null`) for a single falsy child; and renders nothing when it has no
children. -/
theorem providerRender_spec (children : List PNode) (c : PNode) :
    (children.length > 1 → providerRender children = PNode.elem "span" children) ∧
    (c.truthy = true → providerRender [c] = c) ∧
    (c.truthy = false → providerRender [c] = PNode.nulln) ∧
    providerRender [] = PNode.nulln := by
  refine ⟨?_, ?_, ?_, rfl⟩
  · intro h; simp only [providerRender, if_pos h]
  · intro h; simp [providerRender, h]
  · intro h; simp [providerRender, h]

/-- Witness for the amended C8 theorem: a single truthy child passes
through. -/
theorem providerRender_spec_witness :
    PNode.truthy (PNode.textn "x") = true ∧
    providerRender [PNode.textn "x"] = PNode.textn "x" :=
  ⟨rfl, (providerRender_spec [PNode.textn "x"] (PNode.textn "x")).2.1 rfl⟩

/-- C9 (counterexample): when the single child-function and the `render` prop
are the same function, both a child-function and a render prop are supplied,
yet no warning is emitted (`render !== r` is false): the claim's "when both
are supplied, a warning is emitted" fails. -/
theorem consumerRender_same_function_no_warning :
    (consumerRender [ConsumerChild.fn 5] (some 5) JsValue.undef
      (JsValue.numv 1)).2 = [] ∧
    (consumerRender [ConsumerChild.fn 5] (some 5) JsValue.undef
      (JsValue.numv 1)).1 = RenderOutcome.invoked 5 (JsValue.numv 1) := by
  constructor
  · decide
  · decide

/-- C9 (amended): `Consumer.render` resolves the render function as the first
child when that child is truthy, else the `render` prop; when a child-function
and a distinct `render` prop are both supplied, the "both defined" warning is
emitted and the child-function wins; the resolved function is invoked with
`(stateValue OR defaultValue)`; when the resolved candidate is not a function
(or absent), the "expecting a function" warning is emitted and nothing is
rendered; `render` is total, so it never throws. -/
theorem consumerRender_spec (c : ConsumerChild) (cs : List ConsumerChild)
    (render : Option Nat) (f g : Nat) (st dv : JsValue) :
    (c.truthy = true → getRenderer (c :: cs) render = some c) ∧
    (c.truthy = false →
      getRenderer (c :: cs) render = render.map ConsumerChild.fn) ∧
    getRenderer [] render = render.map ConsumerChild.fn ∧
    (f ≠ g →
      consumerRender (ConsumerChild.fn f :: cs) (some g) st dv =
        (RenderOutcome.invoked f (jsOr st dv),
         [CWarning.bothChildrenAndRender])) ∧
    (getRenderer (c :: cs) render = some (ConsumerChild.fn f) →
      (consumerRender (c :: cs) render st dv).1 =
        RenderOutcome.invoked f (jsOr st dv)) ∧
    (∀ w : JsValue, getRenderer (c :: cs) render = some (ConsumerChild.nonFn w) →
      (consumerRender (c :: cs) render st dv).1 = RenderOutcome.nothingR ∧
      CWarning.expectingFunction ∈ (consumerRender (c :: cs) render st dv).2) ∧
    (getRenderer (c :: cs) render = none →
      consumerRender (c :: cs) render st dv =
        (RenderOutcome.nothingR, [CWarning.expectingFunction])) := by
  refine ⟨?_, ?_, ?_, ?_, ?_, ?_, ?_⟩
  · intro h; simp [getRenderer, h]
  · intro h; simp [getRenderer, h]
  · rfl
  · intro hfg
    simp [consumerRender, getRenderer, ConsumerChild.truthy, hfg]
  · intro hr
    simp [consumerRender, hr]
  · intro w hr
    refine ⟨?_, ?_⟩ <;> simp [consumerRender, hr]
  · intro hr
    cases render with
    | none => simp [consumerRender, hr]
    | some g2 =>
      exfalso
      by_cases hc : c.truthy
      · simp [getRenderer, hc] at hr
      · simp [getRenderer, hc] at hr

/-- Witness for the amended C9 theorem: distinct child-function and render
prop produce the warning, and the child wins. -/
theorem consumerRender_spec_witness :
    (1 : Nat) ≠ 2 ∧
    consumerRender [ConsumerChild.fn 1] (some 2) JsValue.undef
        (JsValue.numv 3) =
      (RenderOutcome.invoked 1 (jsOr JsValue.undef (JsValue.numv 3)),
       [CWarning.bothChildrenAndRender]) :=
  ⟨by decide,
   (consumerRender_spec (ConsumerChild.fn 1) [] (some 2) 1 2 JsValue.undef
      (JsValue.numv 3)).2.2.2.1 (by decide)⟩

/-- C10: a falsy value is masked by the creation-time default: the `Consumer`
constructor initializes local state to the default whenever the hub's current
value is falsy (and to the hub value when truthy), and `render` invokes the
resolved function with the default whenever the stored state value is falsy
(and with the state value when truthy). -/
theorem consumer_falsy_default (hub st dv : JsValue)
    (children : List ConsumerChild) (render : Option Nat) (f : Nat) :
    (hub.truthy = false → consumerInitState hub dv = dv) ∧
    (hub.truthy = true → consumerInitState hub dv = hub) ∧
    (st.truthy = false → getRenderer children render = some (ConsumerChild.fn f) →
      (consumerRender children render st dv).1 = RenderOutcome.invoked f dv) ∧
    (st.truthy = true → getRenderer children render = some (ConsumerChild.fn f) →
      (consumerRender children render st dv).1 = RenderOutcome.invoked f st) := by
  refine ⟨?_, ?_, ?_, ?_⟩
  · intro h; simp [consumerInitState, jsOr, h]
  · intro h; simp [consumerInitState, jsOr, h]
  · intro h hr; simp [consumerRender, hr, jsOr, h]
  · intro h hr; simp [consumerRender, hr, jsOr, h]

/-- Witness for the C10 theorem: a falsy hub value (`0`) is replaced by the
default at construction. -/
theorem consumer_falsy_default_witness :
    JsValue.truthy (JsValue.numv 0) = false ∧
    consumerInitState (JsValue.numv 0) (JsValue.numv 7) = JsValue.numv 7 :=
  ⟨by decide,
   (consumer_falsy_default (JsValue.numv 0) JsValue.undef (JsValue.numv 7)
      [] none 0).1 (by decide)⟩
